import Mathlib

/-!
Verification of the phone-number API (`src/api/phone.js`).

The file embeds the program shallowly:
* `normalizePhoneNumber` — the pure normalization routine (lines 36–128),
  working over `String` with a `List Char` core that mirrors the source
  step by step (country code, mobile indicator, area-code split, local fit).
* `Store`, `Config`, `Fails` — the per-namespace Redis state (two keys:
  `phone_number` and `change_count`), the environment configuration, and a
  per-call-site failure schedule modelling a throwing `await` on each of the
  five Redis accesses the handler can make.
* `getHandler` / `postHandler` — the GET and POST branches of the exported
  handler (lines 151–182 and 184–273), with explicit state passing.
-/

namespace Phone

/-- Characters removed by the first cleaning pass,
`replace(/[\s\-\(\)\+]/g, '')` (line 40): whitespace, hyphen, parentheses
and the plus sign.  (The JavaScript `\s` class also covers exotic Unicode
spaces; since the next pass keeps only ASCII digits, which are never in
`\s`, the composition of the two passes is insensitive to that detail.) -/
def isFormatting (c : Char) : Bool :=
  c = ' ' || c = '\t' || c = '\n' || c = '\r' || c = '\x0b' || c = '\x0c' ||
  c = '-' || c = '(' || c = ')' || c = '+'

/-- First cleaning pass (line 40): drop formatting characters. -/
def stripFormatting (l : List Char) : List Char :=
  l.filter (fun c => !(isFormatting c))

/-- Second cleaning pass, `replace(/\D/g, '')` (line 43): keep only digits. -/
def keepDigits (l : List Char) : List Char :=
  l.filter Char.isDigit

/-- Paso 1 (lines 56–74): country code `54`.  Strip a leading `54`; a bare
leading `5` is completed to `54` and then stripped; otherwise `54` is
prepended and immediately stripped (no-op branch). -/
def stripCountry (l : List Char) : List Char :=
  if l.take 2 = ['5', '4'] then
    l.drop 2
  else if l.take 1 = ['5'] then
    (['5', '4'] ++ l.drop 1).drop 2
  else
    (['5', '4'] ++ l).drop 2

/-- Paso 2 (lines 76–85): mobile indicator `9`.  Strip a leading `9`;
otherwise prepend it and immediately strip it (no-op branch). -/
def stripMobile (l : List Char) : List Char :=
  if l.take 1 = ['9'] then
    l.drop 1
  else
    (['9'] ++ l).drop 1

/-- Area-code / local split (lines 87–107): with 10 or more digits the first
two are the area code; otherwise the default area code `11` is used and the
whole remainder is the local number. -/
def splitArea (l : List Char) : List Char × List Char :=
  if l.length ≥ 10 then
    (l.take 2, l.drop 2)
  else if l.length ≥ 6 ∧ l.length < 10 then
    (['1', '1'], l)
  else
    (['1', '1'], l)

/-- Local-number fit (lines 109–117): keep the last 8 digits when longer,
left-pad with `0` to 8 when shorter. -/
def fitLocal (l : List Char) : List Char :=
  if l.length > 8 then
    l.drop (l.length - 8)
  else if l.length < 8 then
    List.replicate (8 - l.length) '0' ++ l
  else
    l

/-- Assembly (line 120) of the steps on an already-cleaned digit list:
`'54' + '9' + areaCode + localNumber`. -/
def normalizeCore (cleaned : List Char) : List Char :=
  let digits := stripMobile (stripCountry cleaned)
  let p := splitArea digits
  '5' :: '4' :: '9' :: (p.1 ++ fitLocal p.2)

/-- `normalizePhoneNumber` (lines 36–128).  A falsy (empty) input and an
input with no digits both return the empty string; otherwise the cleaned
digit list is normalized and assembled. -/
def normalizePhoneNumber (s : String) : String :=
  if s = "" then ""
  else
    let cleaned := keepDigits (stripFormatting s.data)
    if cleaned = [] then ""
    else String.mk (normalizeCore cleaned)

/-- The per-namespace Redis state: the two keys `<ns>:phone_number` and
`<ns>:change_count` (both stored as strings; `none` = key absent). -/
structure Store where
  phone : Option String
  count : Option String
deriving DecidableEq

/-- Environment configuration read by the handler: whether `REDIS_URL` was
set and the client initialized (line 5–25), the effective administrator
password `process.env.ADMIN_PASSWORD || 'admin123'` (line 189), and the
optional `PHONE_NUMBER` / `WHATSAPP_MESSAGE` variables (lines 170–171). -/
structure Config where
  redisConfigured : Bool
  adminPassword : String
  envPhone : Option String
  envMessage : Option String
deriving DecidableEq

/-- Failure schedule: one flag per Redis call site, `true` meaning that
`await` throws.  GET makes calls `getPhone` (line 159) then `getCount`
(line 161); reset makes `resetSetCount` (line 199); update makes
`setPhone` (line 241), then `updGetCount` (line 244), then `updSetCount`
(line 246). -/
structure Fails where
  getPhone : Bool
  getCount : Bool
  resetSetCount : Bool
  setPhone : Bool
  updGetCount : Bool
  updSetCount : Bool
deriving DecidableEq

/-- JavaScript `a || b` for a possibly-absent string `a` (absent and the
empty string are falsy). -/
def jsOr (a : Option String) (b : String) : String :=
  match a with
  | none => b
  | some s => if s = "" then b else s

/-- Hardcoded default phone number (line 170). -/
def defaultPhone : String := "5491157552283"

/-- Hardcoded default WhatsApp message (line 171). -/
def defaultMessage : String :=
  "¡Buen4s!%20Me%20gust4rí4%20cre4r%20un%20usu4rio.%20Mi%20nombre%20es:"

/-- `parseInt(s, 10)` (lines 162, 245) on the strings this handler ever
stores in `change_count` (decimal digit strings, `"0"`, or `"NaN"`): the
value of the longest leading run of digits, `none` = `NaN` when the string
starts with no digit. -/
def jsParseInt (s : String) : Option Nat :=
  let d := s.data.takeWhile Char.isDigit
  if d.isEmpty then none
  else some (d.foldl (fun a c => a * 10 + (c.toNat - 48)) 0)

/-- `countStr ? parseInt(countStr, 10) : 0` (line 162): an absent or empty
stored counter reads as `0`; `none` in the result models `NaN`. -/
def readCount (c : Option String) : Option Nat :=
  match c with
  | none => some 0
  | some s => if s = "" then some 0 else jsParseInt s

/-- `currentCount ? parseInt(currentCount, 10) + 1 : 1` (line 245): the new
counter value on update; `none` models `NaN`. -/
def incCount (c : Option String) : Option Nat :=
  match c with
  | none => some 1
  | some s => if s = "" then some 1 else (jsParseInt s).map (· + 1)

/-- `newCount.toString()` (line 246); `NaN` prints as `"NaN"`. -/
def countToString (c : Option Nat) : String :=
  match c with
  | none => "NaN"
  | some n => Nat.repr n

/-- The JSON body of a successful GET response (lines 173–177). -/
structure GetResponse where
  phone : String
  message : String
  changeCount : Option Nat
deriving DecidableEq

/-- GET branch of the handler (lines 151–182).  The two Redis reads sit in
an inner try/catch: a throw leaves the local variables as already assigned
(`phoneNumber` undefined until line 159 succeeds, `changeCount` zero until
line 162 runs), and the fallbacks at lines 170–171 then apply.  No code
after the inner catch can throw, so the outer 500 branch is unreachable
and the GET always returns a 200 response. -/
def getHandler (cfg : Config) (f : Fails) (st : Store) : GetResponse :=
  let read : Option String × Option Nat :=
    if cfg.redisConfigured then
      if f.getPhone then (none, some 0)
      else if f.getCount then (st.phone, some 0)
      else (st.phone, readCount st.count)
    else (none, some 0)
  { phone := jsOr read.1 (jsOr cfg.envPhone defaultPhone)
    message := jsOr cfg.envMessage defaultMessage
    changeCount := read.2 }

/-- The JSON body of a POST request (line 186): `phone`, `password` and
`reset` fields, each possibly absent; `reset` is compared with `=== true`
so only a literal `true` counts. -/
structure PostBody where
  phone : Option String
  password : Option String
  reset : Bool
deriving DecidableEq

/-- Outcome of the POST branch, one constructor per distinct return site:
401 wrong password (line 191), 200 reset (line 200), 500 reset failure or
Redis unconfigured on reset (lines 207, 212), 400 missing phone (line 220),
400 non-13-digit normalization (line 228), 200 update (line 248), 500
update store failure or Redis unconfigured on update (lines 257, 263). -/
inductive PostResult where
  | badCredential
  | resetOk
  | resetError
  | phoneRequired
  | invalidPhone
  | updateOk (normalizedPhone : String) (changeCount : Option Nat)
  | updateError
deriving DecidableEq

/-- POST branch of the handler (lines 184–273), returning the response and
the store state after the request.  Mutations happen in source order: on
update, the phone write (line 241) precedes the counter read (line 244)
and counter write (line 246); a throw at any call site returns 500 with
whatever was already written kept. -/
def postHandler (cfg : Config) (f : Fails) (body : PostBody) (st : Store) :
    PostResult × Store :=
  if body.password ≠ some cfg.adminPassword then
    (.badCredential, st)
  else if body.reset = true then
    if cfg.redisConfigured then
      if f.resetSetCount then (.resetError, st)
      else (.resetOk, { st with count := some "0" })
    else (.resetError, st)
  else
    match body.phone with
    | none => (.phoneRequired, st)
    | some p =>
      if p = "" then (.phoneRequired, st)
      else
        let normalizedPhone := normalizePhoneNumber p
        if normalizedPhone.length ≠ 13 then (.invalidPhone, st)
        else if cfg.redisConfigured then
          if f.setPhone then (.updateError, st)
          else
            let st1 := { st with phone := some normalizedPhone }
            if f.updGetCount then (.updateError, st1)
            else
              let newCount := incCount st1.count
              if f.updSetCount then (.updateError, st1)
              else
                (.updateOk normalizedPhone newCount,
                 { st1 with count := some (countToString newCount) })
        else (.updateError, st)

/-! ### Lemmas about the normalizer -/

theorem isFormatting_false_of_digit {c : Char} (h : c.isDigit = true) :
    isFormatting c = false := by
  by_contra hne
  have hf : isFormatting c = true := by
    cases hb : isFormatting c
    · exact absurd hb hne
    · rfl
  simp only [isFormatting, Bool.or_eq_true, decide_eq_true_eq, or_assoc] at hf
  rcases hf with h1 | h1 | h1 | h1 | h1 | h1 | h1 | h1 | h1 | h1 <;>
    subst h1 <;> exact absurd h (by decide)

theorem stripFormatting_of_all_digit {l : List Char}
    (h : l.all Char.isDigit = true) : stripFormatting l = l := by
  apply List.filter_eq_self.mpr
  intro c hc
  have := List.all_eq_true.mp h c hc
  simp [isFormatting_false_of_digit this]

theorem keepDigits_of_all_digit {l : List Char}
    (h : l.all Char.isDigit = true) : keepDigits l = l :=
  List.filter_eq_self.mpr fun c hc => List.all_eq_true.mp h c hc

theorem keepDigits_all (l : List Char) :
    (keepDigits l).all Char.isDigit = true := by
  rw [List.all_eq_true]
  intro c hc
  exact (List.mem_filter.mp hc).2

theorem stripCountry_eq (l : List Char) :
    stripCountry l =
      if l.take 2 = ['5', '4'] then l.drop 2
      else if l.take 1 = ['5'] then l.drop 1
      else l := by
  unfold stripCountry
  by_cases h1 : l.take 2 = ['5', '4']
  · simp [h1]
  · by_cases h2 : l.take 1 = ['5'] <;> simp [h1, h2]

theorem mem_of_mem_stripCountry {l : List Char} {c : Char}
    (h : c ∈ stripCountry l) : c ∈ l := by
  rw [stripCountry_eq] at h
  split at h
  · exact List.mem_of_mem_drop h
  · split at h
    · exact List.mem_of_mem_drop h
    · exact h

theorem stripMobile_eq (l : List Char) :
    stripMobile l = if l.take 1 = ['9'] then l.drop 1 else l := by
  unfold stripMobile
  by_cases h1 : l.take 1 = ['9'] <;> simp [h1]

theorem mem_of_mem_stripMobile {l : List Char} {c : Char}
    (h : c ∈ stripMobile l) : c ∈ l := by
  rw [stripMobile_eq] at h
  split at h
  · exact List.mem_of_mem_drop h
  · exact h

theorem splitArea_eq (l : List Char) :
    splitArea l =
      if l.length ≥ 10 then (l.take 2, l.drop 2) else (['1', '1'], l) := by
  unfold splitArea
  by_cases h : l.length ≥ 10 <;> simp [h]

theorem splitArea_fst_length (l : List Char) : (splitArea l).1.length = 2 := by
  rw [splitArea_eq]
  split
  · rename_i h
    show (l.take 2).length = 2
    rw [List.length_take]
    omega
  · rfl

theorem splitArea_mem_fst {l : List Char} {c : Char}
    (h : c ∈ (splitArea l).1) : c ∈ l ∨ c = '1' := by
  rw [splitArea_eq] at h
  split at h
  · exact Or.inl (List.mem_of_mem_take h)
  · refine Or.inr ?_
    rcases List.mem_cons.mp h with h1 | h1
    · exact h1
    · simpa using h1

theorem splitArea_mem_snd {l : List Char} {c : Char}
    (h : c ∈ (splitArea l).2) : c ∈ l := by
  rw [splitArea_eq] at h
  split at h
  · exact List.mem_of_mem_drop h
  · exact h

theorem fitLocal_length (l : List Char) : (fitLocal l).length = 8 := by
  unfold fitLocal
  by_cases hgt : l.length > 8
  · rw [if_pos hgt, List.length_drop]
    omega
  · rw [if_neg hgt]
    by_cases hlt : l.length < 8
    · rw [if_pos hlt, List.length_append, List.length_replicate]
      omega
    · rw [if_neg hlt]
      omega

theorem fitLocal_mem {l : List Char} {c : Char}
    (h : c ∈ fitLocal l) : c ∈ l ∨ c = '0' := by
  unfold fitLocal at h
  split at h
  · exact Or.inl (List.mem_of_mem_drop h)
  · split at h
    · rcases List.mem_append.mp h with h1 | h1
      · exact Or.inr (List.eq_of_mem_replicate h1)
      · exact Or.inl h1
    · exact Or.inl h

theorem normalizeCore_parts (l : List Char) :
    ∃ a b : List Char, normalizeCore l = '5' :: '4' :: '9' :: (a ++ b) ∧
      a.length = 2 ∧ b.length = 8 ∧
      (l.all Char.isDigit = true → (a ++ b).all Char.isDigit = true) := by
  refine ⟨(splitArea (stripMobile (stripCountry l))).1,
          fitLocal (splitArea (stripMobile (stripCountry l))).2, rfl,
          splitArea_fst_length _, fitLocal_length _, ?_⟩
  intro hall
  rw [List.all_eq_true]
  intro c hc
  have hmem : ∀ d : Char, d ∈ stripMobile (stripCountry l) → d.isDigit = true :=
    fun d hd =>
      List.all_eq_true.mp hall d (mem_of_mem_stripCountry (mem_of_mem_stripMobile hd))
  rcases List.mem_append.mp hc with h1 | h1
  · rcases splitArea_mem_fst h1 with h2 | h2
    · exact hmem c h2
    · subst h2; decide
  · rcases fitLocal_mem h1 with h2 | h2
    · exact hmem c (splitArea_mem_snd h2)
    · subst h2; decide

theorem normalizeCore_length (l : List Char) : (normalizeCore l).length = 13 := by
  obtain ⟨a, b, heq, ha, hb, -⟩ := normalizeCore_parts l
  simp [heq, List.length_append, ha, hb]

theorem normalizeCore_all_digit {l : List Char} (h : l.all Char.isDigit = true) :
    (normalizeCore l).all Char.isDigit = true := by
  obtain ⟨a, b, heq, -, -, hdig⟩ := normalizeCore_parts l
  rw [heq, List.all_cons, List.all_cons, List.all_cons, hdig h]
  decide

theorem cleaned_eq_nil_iff (s : String) :
    keepDigits (stripFormatting s.data) = [] ↔ s.data.any Char.isDigit = false := by
  constructor
  · intro h
    rw [Bool.eq_false_iff]
    intro hany
    obtain ⟨c, hc, hdig⟩ := List.any_eq_true.mp hany
    have hc1 : c ∈ stripFormatting s.data := by
      apply List.mem_filter.mpr
      exact ⟨hc, by simp [isFormatting_false_of_digit hdig]⟩
    have hc2 : c ∈ keepDigits (stripFormatting s.data) :=
      List.mem_filter.mpr ⟨hc1, hdig⟩
    rw [h] at hc2
    cases hc2
  · intro h
    rcases hl : keepDigits (stripFormatting s.data) with _ | ⟨c, rest⟩
    · rfl
    · have hc : c ∈ keepDigits (stripFormatting s.data) := by rw [hl]; exact List.mem_cons_self c rest
      have hdig : c.isDigit = true := (List.mem_filter.mp hc).2
      have hmem : c ∈ s.data :=
        (List.mem_filter.mp (List.mem_filter.mp hc).1).1
      have : s.data.any Char.isDigit = true := List.any_eq_true.mpr ⟨c, hmem, hdig⟩
      rw [h] at this
      cases this

theorem normalize_of_no_digit {s : String} (h : s.data.any Char.isDigit = false) :
    normalizePhoneNumber s = "" := by
  unfold normalizePhoneNumber
  split
  · rfl
  · simp [(cleaned_eq_nil_iff s).mpr h]

theorem normalize_of_digit {s : String} (h : s.data.any Char.isDigit = true) :
    normalizePhoneNumber s =
      String.mk (normalizeCore (keepDigits (stripFormatting s.data))) := by
  have hne : s ≠ "" := by
    intro hs
    subst hs
    cases h
  have hcl : keepDigits (stripFormatting s.data) ≠ [] := by
    intro hc
    rw [(cleaned_eq_nil_iff s).mp hc] at h
    cases h
  unfold normalizePhoneNumber
  simp [hne, hcl]

theorem normalize_length_of_digit {s : String} (h : s.data.any Char.isDigit = true) :
    (normalizePhoneNumber s).length = 13 := by
  rw [normalize_of_digit h]
  exact normalizeCore_length _

theorem normalize_all_digit {s : String} (h : s.data.any Char.isDigit = true) :
    (normalizePhoneNumber s).data.all Char.isDigit = true := by
  rw [normalize_of_digit h]
  exact normalizeCore_all_digit (keepDigits_all _)

theorem normalize_length_eq_13_iff (s : String) :
    (normalizePhoneNumber s).length = 13 ↔ s.data.any Char.isDigit = true := by
  constructor
  · intro h
    cases hb : s.data.any Char.isDigit
    · rw [normalize_of_no_digit hb] at h
      cases h
    · rfl
  · exact normalize_length_of_digit

theorem normalizeCore_canonical {a loc : List Char}
    (ha : a.length = 2) (hloc : loc.length = 8) :
    normalizeCore ('5' :: '4' :: '9' :: (a ++ loc)) =
      '5' :: '4' :: '9' :: (a ++ loc) := by
  have h1 : stripCountry ('5' :: '4' :: '9' :: (a ++ loc)) = '9' :: (a ++ loc) := by
    rw [stripCountry_eq]
    simp
  have h2 : stripMobile ('9' :: (a ++ loc)) = a ++ loc := by
    rw [stripMobile_eq]
    simp
  have hlen : (a ++ loc).length = 10 := by rw [List.length_append, ha, hloc]
  have h3 : splitArea (a ++ loc) = (a, loc) := by
    rw [splitArea_eq, if_pos (show (a ++ loc).length ≥ 10 by omega),
        List.take_left' ha, List.drop_left' ha]
  have h4 : fitLocal loc = loc := by
    unfold fitLocal
    rw [if_neg (by omega), if_neg (by omega)]
  simp only [normalizeCore]
  rw [h1, h2, h3, h4]

theorem normalize_idem (x : String) (h : (normalizePhoneNumber x).length = 13) :
    normalizePhoneNumber (normalizePhoneNumber x) = normalizePhoneNumber x := by
  have hany := (normalize_length_eq_13_iff x).mp h
  obtain ⟨a, b, heq, ha, hb, hdig⟩ :=
    normalizeCore_parts (keepDigits (stripFormatting x.data))
  have hx : normalizePhoneNumber x = String.mk ('5' :: '4' :: '9' :: (a ++ b)) := by
    rw [normalize_of_digit hany, heq]
  have hdigs : (a ++ b).all Char.isDigit = true := hdig (keepDigits_all _)
  have hall : ('5' :: '4' :: '9' :: (a ++ b)).all Char.isDigit = true := by
    rw [List.all_cons, List.all_cons, List.all_cons, hdigs]
    decide
  have hany2 : (String.mk ('5' :: '4' :: '9' :: (a ++ b))).data.any Char.isDigit = true := by
    show ('5' :: '4' :: '9' :: (a ++ b)).any Char.isDigit = true
    rw [List.any_cons]
    have h5 : Char.isDigit '5' = true := by decide
    rw [h5, Bool.true_or]
  rw [hx, normalize_of_digit hany2]
  show String.mk (normalizeCore
      (keepDigits (stripFormatting ('5' :: '4' :: '9' :: (a ++ b))))) = _
  rw [stripFormatting_of_all_digit hall, keepDigits_of_all_digit hall,
      normalizeCore_canonical ha hb]

/-! ### Lemmas about the handler -/

theorem postHandler_update (cfg : Config) (f : Fails) (st : Store) (p : String)
    (hp : p ≠ "") (h13 : (normalizePhoneNumber p).length = 13)
    (hr : cfg.redisConfigured = true)
    (h1 : f.setPhone = false) (h2 : f.updGetCount = false) (h3 : f.updSetCount = false) :
    postHandler cfg f ⟨some p, some cfg.adminPassword, false⟩ st =
      (.updateOk (normalizePhoneNumber p) (incCount st.count),
       { phone := some (normalizePhoneNumber p),
         count := some (countToString (incCount st.count)) }) := by
  unfold postHandler
  simp [hp, h13, hr, h1, h2, h3]

theorem postHandler_no_digit (cfg : Config) (f : Fails) (st : Store) (p : String)
    (hp : p ≠ "") (hnd : p.data.any Char.isDigit = false) :
    postHandler cfg f ⟨some p, some cfg.adminPassword, false⟩ st =
      (.invalidPhone, st) := by
  have h0 : (normalizePhoneNumber p).length ≠ 13 := by
    rw [normalize_of_no_digit hnd]
    decide
  unfold postHandler
  simp [hp, h0]

theorem postHandler_digit_not_rejected (cfg : Config) (f : Fails) (st : Store)
    (p : String) (hp : p ≠ "") (hd : p.data.any Char.isDigit = true) :
    (postHandler cfg f ⟨some p, some cfg.adminPassword, false⟩ st).1 ≠ .phoneRequired ∧
    (postHandler cfg f ⟨some p, some cfg.adminPassword, false⟩ st).1 ≠ .invalidPhone := by
  have h13 := normalize_length_of_digit hd
  rcases cfg with ⟨rc, pw, ep, em⟩
  rcases f with ⟨g1, g2, r1, s1, u1, u2⟩
  cases rc <;> cases s1 <;> cases u1 <;> cases u2 <;>
    simp [postHandler, hp, h13]

end Phone

namespace Phone

/-- C1: for every input string of 6 to 13 pure digits that is not already
13 digits long, `normalizePhoneNumber` returns a string of length exactly
13 all of whose characters are digits (i.e. matching the regex
`^\d{13}$`). -/
theorem claim_C1 (s : String) (hdig : s.data.all Char.isDigit = true)
    (hlen1 : 6 ≤ s.length) (_hlen2 : s.length ≤ 13) (_hne : s.length ≠ 13) :
    (normalizePhoneNumber s).length = 13 ∧
    (normalizePhoneNumber s).data.all Char.isDigit = true := by
  have hpos : 0 < s.data.length := by
    have h0 : s.length = s.data.length := rfl
    omega
  obtain ⟨c, hc⟩ := List.exists_mem_of_length_pos hpos
  have hcd : c.isDigit = true := List.all_eq_true.mp hdig c hc
  have hany : s.data.any Char.isDigit = true := List.any_eq_true.mpr ⟨c, hc, hcd⟩
  exact ⟨normalize_length_of_digit hany, normalize_all_digit hany⟩

/-- C1 witness: the hypotheses are satisfiable, e.g. by the 6-digit input
`"123456"`. -/
theorem claim_C1_witness :
    (normalizePhoneNumber "123456").length = 13 ∧
    (normalizePhoneNumber "123456").data.all Char.isDigit = true :=
  claim_C1 "123456" (by decide) (by decide) (by decide) (by decide)

/-- C3: every input containing at least one digit normalizes to a string
of exactly 13 digits; in particular `"1"` yields `"5491100000001"`; and
in the update path of the POST handler (correct password, `reset` not
set), the input-validation rejections (`400` responses, of which the
`length == 13` check is the non-falsy case) occur exactly for the inputs
that are falsy or contain no digit character. -/
theorem claim_C3 :
    (∀ s : String, s.data.any Char.isDigit = true →
      (normalizePhoneNumber s).length = 13 ∧
      (normalizePhoneNumber s).data.all Char.isDigit = true) ∧
    normalizePhoneNumber "1" = "5491100000001" ∧
    (∀ (cfg : Config) (f : Fails) (st : Store) (op : Option String),
      ((postHandler cfg f ⟨op, some cfg.adminPassword, false⟩ st).1 = .phoneRequired ∨
       (postHandler cfg f ⟨op, some cfg.adminPassword, false⟩ st).1 = .invalidPhone) ↔
      (∀ p : String, op = some p → (p = "" ∨ p.data.any Char.isDigit = false))) := by
  refine ⟨fun s h => ⟨normalize_length_of_digit h, normalize_all_digit h⟩, by decide, ?_⟩
  intro cfg f st op
  match op with
  | none =>
    constructor
    · intro _ p hp
      cases hp
    · intro _
      left
      unfold postHandler
      simp
  | some p =>
    by_cases hp : p = ""
    · subst hp
      constructor
      · intro _ q hq
        cases hq
        exact Or.inl rfl
      · intro _
        left
        unfold postHandler
        simp
    · cases hd : p.data.any Char.isDigit
      · constructor
        · intro _ q hq
          cases hq
          exact Or.inr hd
        · intro _
          right
          rw [postHandler_no_digit cfg f st p hp hd]
      · constructor
        · intro hrej
          obtain ⟨hn1, hn2⟩ := postHandler_digit_not_rejected cfg f st p hp hd
          rcases hrej with h | h
          · exact absurd h hn1
          · exact absurd h hn2
        · intro hall
          rcases hall p rfl with h | h
          · exact absurd h hp
          · rw [hd] at h
            cases h

/-- C4: `normalizePhoneNumber` is idempotent on every input whose
normalization is a 13-digit string. -/
theorem claim_C4 (x : String) (h : (normalizePhoneNumber x).length = 13) :
    normalizePhoneNumber (normalizePhoneNumber x) = normalizePhoneNumber x :=
  normalize_idem x h

/-- C4 witness: the hypothesis is satisfiable, e.g. by
`"+54 11 4344 3600"`. -/
theorem claim_C4_witness :
    normalizePhoneNumber (normalizePhoneNumber "+54 11 4344 3600") =
      normalizePhoneNumber "+54 11 4344 3600" :=
  claim_C4 "+54 11 4344 3600" (by decide)

/-- C5: `normalizePhoneNumber` maps each concrete example of the spec to
its stated 13-digit output. -/
theorem claim_C5 :
    normalizePhoneNumber "+54 11 4344 3600" = "5491143443600" ∧
    normalizePhoneNumber "11 1234 5678" = "5491112345678" ∧
    normalizePhoneNumber "15 1234 5678" = "5491512345678" ∧
    normalizePhoneNumber "591157542802" = "5491157542802" ∧
    normalizePhoneNumber "(11) 1234-5678" = "5491112345678" := by
  refine ⟨by decide, by decide, by decide, by decide, by decide⟩

/-- C2 counterexample: the input `"1"` has only one meaningful local digit
after country-code, mobile-indicator and area-code processing (fewer than
6), yet the update handler does not reject it: the zero-padding masks the
short input, the `length == 13` check passes, and the handler returns
success and stores the padded number.  This refutes the claim that every
such input gets the invalid-input error. -/
theorem claim_C2_counterexample :
    (splitArea (stripMobile (stripCountry
        (keepDigits (stripFormatting ("1" : String).data))))).2.length < 6 ∧
    postHandler ⟨true, "admin123", none, none⟩
        ⟨false, false, false, false, false, false⟩
        ⟨some "1", some "admin123", false⟩ ⟨none, none⟩ =
      (.updateOk "5491100000001" (some 1),
       ⟨some "5491100000001", some "1"⟩) :=
  ⟨by decide, by decide⟩

/-- C2 amended: the caller's `length == 13` check rejects an update input
only when it normalizes to no digits at all (non-empty input without any
digit character); every input with at least one digit — in particular one
with fewer than 6 meaningful local digits — passes the check, is accepted,
and its zero-padded 13-digit normalization is stored. -/
theorem claim_C2_amended :
    (∀ (cfg : Config) (f : Fails) (st : Store) (p : String),
      p ≠ "" → p.data.any Char.isDigit = false →
      postHandler cfg f ⟨some p, some cfg.adminPassword, false⟩ st =
        (.invalidPhone, st)) ∧
    (∀ (cfg : Config) (f : Fails) (st : Store) (p : String),
      p.data.any Char.isDigit = true →
      cfg.redisConfigured = true → f.setPhone = false → f.updGetCount = false →
      f.updSetCount = false →
      postHandler cfg f ⟨some p, some cfg.adminPassword, false⟩ st =
        (.updateOk (normalizePhoneNumber p) (incCount st.count),
         ⟨some (normalizePhoneNumber p),
          some (countToString (incCount st.count))⟩)) := by
  constructor
  · exact fun cfg f st p hp hnd => postHandler_no_digit cfg f st p hp hnd
  · intro cfg f st p hd hr h1 h2 h3
    have hp : p ≠ "" := by
      intro h0
      subst h0
      exact absurd hd (by decide)
    exact postHandler_update cfg f st p hp (normalize_length_of_digit hd) hr h1 h2 h3

/-- C2 amended witness: both conjuncts are inhabited at concrete inputs:
`"abc"` (no digits) is rejected, `"12345"` (five meaningful local digits)
is accepted and stored zero-padded. -/
theorem claim_C2_amended_witness :
    postHandler ⟨true, "admin123", none, none⟩
        ⟨false, false, false, false, false, false⟩
        ⟨some "abc", some "admin123", false⟩ ⟨none, none⟩ =
      (.invalidPhone, ⟨none, none⟩) ∧
    postHandler ⟨true, "admin123", none, none⟩
        ⟨false, false, false, false, false, false⟩
        ⟨some "12345", some "admin123", false⟩ ⟨none, none⟩ =
      (.updateOk (normalizePhoneNumber "12345") (incCount none),
       ⟨some (normalizePhoneNumber "12345"),
        some (countToString (incCount none))⟩) :=
  ⟨claim_C2_amended.1 ⟨true, "admin123", none, none⟩
      ⟨false, false, false, false, false, false⟩ ⟨none, none⟩ "abc"
      (by decide) (by decide),
   claim_C2_amended.2 ⟨true, "admin123", none, none⟩
      ⟨false, false, false, false, false, false⟩ ⟨none, none⟩ "12345"
      (by decide) rfl rfl rfl rfl⟩

/-- C6: a successful update (correct password, valid phone, Redis up)
increments the stored change counter by exactly 1, treating an absent
stored value as 0; and two sequential successful updates starting from no
stored counter produce the counter values 1 and then 2. -/
theorem claim_C6 :
    (∀ (cfg : Config) (f : Fails) (st : Store) (p : String) (k : Nat),
      (normalizePhoneNumber p).length = 13 →
      cfg.redisConfigured = true →
      f.setPhone = false → f.updGetCount = false → f.updSetCount = false →
      (st.count = none ∧ k = 0 ∨
        ∃ s, st.count = some s ∧ s ≠ "" ∧ jsParseInt s = some k) →
      postHandler cfg f ⟨some p, some cfg.adminPassword, false⟩ st =
        (.updateOk (normalizePhoneNumber p) (some (k + 1)),
         ⟨some (normalizePhoneNumber p), some (Nat.repr (k + 1))⟩)) ∧
    (postHandler ⟨true, "admin123", none, none⟩
        ⟨false, false, false, false, false, false⟩
        ⟨some "11 1234 5678", some "admin123", false⟩ ⟨none, none⟩ =
      (.updateOk "5491112345678" (some 1),
       ⟨some "5491112345678", some "1"⟩)) ∧
    (postHandler ⟨true, "admin123", none, none⟩
        ⟨false, false, false, false, false, false⟩
        ⟨some "15 1234 5678", some "admin123", false⟩
        (postHandler ⟨true, "admin123", none, none⟩
          ⟨false, false, false, false, false, false⟩
          ⟨some "11 1234 5678", some "admin123", false⟩ ⟨none, none⟩).2 =
      (.updateOk "5491512345678" (some 2),
       ⟨some "5491512345678", some "2"⟩)) := by
  refine ⟨?_, by decide, by decide⟩
  intro cfg f st p k h13 hr h1 h2 h3 hcount
  have hp : p ≠ "" := by
    intro h0
    subst h0
    rw [show normalizePhoneNumber "" = "" by decide] at h13
    exact absurd h13 (by decide)
  rw [postHandler_update cfg f st p hp h13 hr h1 h2 h3]
  rcases hcount with ⟨hnone, hk⟩ | ⟨s, hs, hsne, hsk⟩
  · subst hk
    rw [hnone]
    rfl
  · rw [hs]
    simp [incCount, hsne, hsk, countToString]

/-- C6 witness: the general conjunct applies to a concrete store whose
counter holds `"7"`: the update stores `"8"` and reports 8. -/
theorem claim_C6_witness :
    postHandler ⟨true, "admin123", none, none⟩
        ⟨false, false, false, false, false, false⟩
        ⟨some "591157542802", some "admin123", false⟩
        ⟨some "5491157552283", some "7"⟩ =
      (.updateOk (normalizePhoneNumber "591157542802") (some (7 + 1)),
       ⟨some (normalizePhoneNumber "591157542802"), some (Nat.repr (7 + 1))⟩) :=
  claim_C6.1 ⟨true, "admin123", none, none⟩
    ⟨false, false, false, false, false, false⟩
    ⟨some "5491157552283", some "7"⟩ "591157542802" 7
    (by decide) rfl rfl rfl rfl
    (Or.inr ⟨"7", rfl, by decide, by decide⟩)

/-- C7: with the correct password and a working store, a reset forces the
stored change counter to `"0"` regardless of its prior value and leaves
the stored canonical number unchanged. -/
theorem claim_C7 (cfg : Config) (f : Fails) (st : Store) (ph : Option String)
    (hr : cfg.redisConfigured = true) (hf : f.resetSetCount = false) :
    postHandler cfg f ⟨ph, some cfg.adminPassword, true⟩ st =
      (.resetOk, ⟨st.phone, some "0"⟩) := by
  rcases st with ⟨sp, sc⟩
  unfold postHandler
  simp [hr, hf]

/-- C7 witness: resetting a store whose counter holds `"41"` yields
counter `"0"` with the stored phone number untouched. -/
theorem claim_C7_witness :
    postHandler ⟨true, "admin123", none, none⟩
        ⟨false, false, false, false, false, false⟩
        ⟨none, some "admin123", true⟩ ⟨some "5491112345678", some "41"⟩ =
      (.resetOk, ⟨some "5491112345678", some "0"⟩) :=
  claim_C7 ⟨true, "admin123", none, none⟩
    ⟨false, false, false, false, false, false⟩
    ⟨some "5491112345678", some "41"⟩ none rfl rfl

/-- C8: a POST whose password differs from the configured administrator
secret gets the invalid-credential error, and the store is left exactly as
it was — no mutation of the stored number or counter. -/
theorem claim_C8 (cfg : Config) (f : Fails) (st : Store) (body : PostBody)
    (hpw : body.password ≠ some cfg.adminPassword) :
    postHandler cfg f body st = (.badCredential, st) := by
  unfold postHandler
  simp [hpw]

/-- C8 witness: a wrong password on a populated store changes nothing. -/
theorem claim_C8_witness :
    postHandler ⟨true, "admin123", none, none⟩
        ⟨false, false, false, false, false, false⟩
        ⟨some "11 1234 5678", some "wrong", false⟩
        ⟨some "5491112345678", some "3"⟩ =
      (.badCredential, ⟨some "5491112345678", some "3"⟩) :=
  claim_C8 ⟨true, "admin123", none, none⟩
    ⟨false, false, false, false, false, false⟩
    ⟨some "5491112345678", some "3"⟩
    ⟨some "11 1234 5678", some "wrong", false⟩ (by decide)

/-- C9 counterexample: an update whose phone write succeeds but whose
subsequent counter read throws reports a store failure (500) to the
caller, yet the stored canonical number has already been overwritten: a
partial mutation is observable, refuting the claim that both values are
left unchanged whenever a store failure is reported. -/
theorem claim_C9_counterexample :
    (postHandler ⟨true, "admin123", none, none⟩
        ⟨false, false, false, false, true, false⟩
        ⟨some "11 1234 5678", some "admin123", false⟩
        ⟨some "5491157552283", some "7"⟩).1 = .updateError ∧
    (postHandler ⟨true, "admin123", none, none⟩
        ⟨false, false, false, false, true, false⟩
        ⟨some "11 1234 5678", some "admin123", false⟩
        ⟨some "5491157552283", some "7"⟩).2 ≠
      ⟨some "5491157552283", some "7"⟩ :=
  ⟨by decide, by decide⟩

/-- C9 amended: when an Update reports a store failure, the stored change
counter is always unchanged (the counter is only advanced after the phone
write has been decided), and the stored canonical number is either
unchanged (failure on the phone write itself, or Redis unconfigured) or
already overwritten with the new normalized number (failure on the later
counter read or write). -/
theorem claim_C9_amended (cfg : Config) (f : Fails) (st : Store) (p : String)
    (pw : Option String) (brst : Bool)
    (herr : (postHandler cfg f ⟨some p, pw, brst⟩ st).1 = .updateError) :
    (postHandler cfg f ⟨some p, pw, brst⟩ st).2.count = st.count ∧
    ((postHandler cfg f ⟨some p, pw, brst⟩ st).2 = st ∨
     (postHandler cfg f ⟨some p, pw, brst⟩ st).2 =
       { st with phone := some (normalizePhoneNumber p) }) := by
  revert herr
  simp only [postHandler]
  repeat' split
  all_goals intro herr
  all_goals
    first
      | exact PostResult.noConfusion herr
      | exact ⟨rfl, Or.inl rfl⟩
      | exact ⟨rfl, Or.inr rfl⟩

/-- C9 amended witness: at the counterexample schedule (counter read
throws after a successful phone write) the amended description holds: the
counter cell is untouched and the phone cell holds the new number. -/
theorem claim_C9_amended_witness :
    (postHandler ⟨true, "admin123", none, none⟩
        ⟨false, false, false, false, true, false⟩
        ⟨some "591157542802", some "admin123", false⟩
        ⟨some "5491157552283", some "7"⟩).2.count =
      (⟨some "5491157552283", some "7"⟩ : Store).count ∧
    ((postHandler ⟨true, "admin123", none, none⟩
        ⟨false, false, false, false, true, false⟩
        ⟨some "591157542802", some "admin123", false⟩
        ⟨some "5491157552283", some "7"⟩).2 =
      ⟨some "5491157552283", some "7"⟩ ∨
     (postHandler ⟨true, "admin123", none, none⟩
        ⟨false, false, false, false, true, false⟩
        ⟨some "591157542802", some "admin123", false⟩
        ⟨some "5491157552283", some "7"⟩).2 =
      { (⟨some "5491157552283", some "7"⟩ : Store) with
        phone := some (normalizePhoneNumber "591157542802") }) :=
  claim_C9_amended ⟨true, "admin123", none, none⟩
    ⟨false, false, false, false, true, false⟩
    ⟨some "5491157552283", some "7"⟩ "591157542802"
    (some "admin123") false (by decide)

/-- C10 counterexample: a GET during which the store errors (the counter
read throws after the phone read succeeded) still answers 200 with counter
0 — but with the previously stored phone number, not the configured
default (`PHONE_NUMBER` is set to a different value here), refuting the
claim that such a request always reports the configured default. -/
theorem claim_C10_counterexample :
    (getHandler ⟨true, "admin123", some "5491122222222", none⟩
        ⟨false, true, false, false, false, false⟩
        ⟨some "5491133333333", some "5"⟩).phone = "5491133333333" ∧
    (getHandler ⟨true, "admin123", some "5491122222222", none⟩
        ⟨false, true, false, false, false, false⟩
        ⟨some "5491133333333", some "5"⟩).phone ≠
      jsOr (some "5491122222222") defaultPhone ∧
    (getHandler ⟨true, "admin123", some "5491122222222", none⟩
        ⟨false, true, false, false, false, false⟩
        ⟨some "5491133333333", some "5"⟩).changeCount = some 0 :=
  ⟨by decide, by decide, by decide⟩

/-- C10 amended: on a GET during which the store is unconfigured,
unreachable or errors, the handler always answers successfully with
counter 0 and the configured message; the reported phone is the
configured default, except that when only the counter read failed the
stored phone (itself falling back to the configured default when absent)
is reported instead. -/
theorem claim_C10_amended (cfg : Config) (f : Fails) (st : Store)
    (h : cfg.redisConfigured = false ∨ f.getPhone = true ∨ f.getCount = true) :
    (getHandler cfg f st).changeCount = some 0 ∧
    (getHandler cfg f st).message = jsOr cfg.envMessage defaultMessage ∧
    ((getHandler cfg f st).phone = jsOr cfg.envPhone defaultPhone ∨
     (getHandler cfg f st).phone = jsOr st.phone (jsOr cfg.envPhone defaultPhone)) := by
  rcases cfg with ⟨rc, pw, ep, em⟩
  rcases f with ⟨g1, g2, r1, s1, u1, u2⟩
  simp only at h
  cases rc <;> cases g1 <;> cases g2 <;> simp_all [getHandler] <;>
    exact Or.inl rfl

/-- C10 amended witness: with Redis unconfigured the GET reports the
configured default phone, the configured message and counter 0. -/
theorem claim_C10_amended_witness :
    (getHandler ⟨false, "admin123", some "5491122222222", none⟩
        ⟨false, false, false, false, false, false⟩ ⟨none, none⟩).changeCount = some 0 ∧
    (getHandler ⟨false, "admin123", some "5491122222222", none⟩
        ⟨false, false, false, false, false, false⟩ ⟨none, none⟩).message =
      jsOr none defaultMessage ∧
    ((getHandler ⟨false, "admin123", some "5491122222222", none⟩
        ⟨false, false, false, false, false, false⟩ ⟨none, none⟩).phone =
      jsOr (some "5491122222222") defaultPhone ∨
     (getHandler ⟨false, "admin123", some "5491122222222", none⟩
        ⟨false, false, false, false, false, false⟩ ⟨none, none⟩).phone =
      jsOr none (jsOr (some "5491122222222") defaultPhone)) :=
  claim_C10_amended ⟨false, "admin123", some "5491122222222", none⟩
    ⟨false, false, false, false, false, false⟩ ⟨none, none⟩ (by decide)

end Phone
